import Mathlib

/-!
# KubeDynamicScaler reconciliation engine — shallow embedding

This file embeds, in Lean, the parts of the KubeDynamicScaler controller that
the verified properties talk about:

* the sizing helpers of `pkg/utils/scaling.go`
  (`GetOriginalReplicas`, `CalculateNewReplicas`, `ShouldIgnoreDeployment`);
* the per-deployment reconciliation step of
  `internal/controller/replicasoverride_controller.go`
  (`processDeployment`, `processHPA`, `calculateTargetReplicas`,
  and the cleanup pass of `Reconcile` that reverts previously affected
  objects);
* the configuration manager (`config.Manager.loadConfig` / `GetConfig`).

Modelling conventions:

* Go `int32` values are modelled as `Int`; the Go code never exercises
  wrap-around on the inputs the properties quantify over, and the few places
  the source converts a `float64` to `int32` are modelled as exact rational
  arithmetic followed by truncation toward zero (`Int.tdiv`), which is the
  value Go computes whenever the float operations are exact.
* Annotations are a fixed set of domain keys; the annotation map is modelled
  as a structure with one `Option` field per key.  Keys holding decimal
  integers (written with `strconv.FormatInt` and read back with
  `strconv.ParseInt`, a lossless round trip for in-range values) are modelled
  as `Option Int`; the error `ParseInt` ignores on a missing key is modelled
  by `Option.getD 0` exactly where the source ignores it.
* Pointer fields that the source dereferences unconditionally
  (`*deployment.Spec.Replicas`, `*hpa.Spec.MinReplicas`) are modelled as
  plain integers.
* Cluster reads/writes are modelled on a single object: a reconciliation
  step is a function from the object states it reads to the object states it
  persists, in the uncontended case (the conflict-retry loops re-read the
  same state).  Error returns of the cluster client are outside the model.
-/

/-- `pkg/config/types.go`: the cluster-wide configuration document. -/
structure GlobalConfig where
  GlobalPercentage : Int
  MaxReplicas : Int
  MinReplicas : Int
deriving DecidableEq, Repr

/-- `pkg/config/types.go` `DefaultConfig`. -/
def DefaultConfig : GlobalConfig :=
  { GlobalPercentage := 100, MaxReplicas := 100, MinReplicas := 1 }

/-- The `kubedynamicscaler.io/*` annotations the engine writes on a
Deployment (`pkg/utils/scaling.go` lines 17-23), one `Option` field per key. -/
structure DeployAnnotations where
  OriginalReplicas : Option Int
  Managed : Option String
  OverrideController : Option String
  GlobalConfigManaged : Option String
  ManagementMode : Option String
  LastUpdate : Option String
deriving DecidableEq, Repr

/-- A Deployment, restricted to the fields the engine reads or writes:
name, namespace, labels, `spec.replicas` and the domain annotations. -/
structure Deployment where
  Name : String
  Namespace : String
  Labels : List (String × String)
  Replicas : Int
  Ann : DeployAnnotations
deriving DecidableEq, Repr

/-- The `kubedynamicscaler.io/*` annotations the engine writes on an HPA
(`pkg/utils/scaling.go` lines 25-29 plus the shared management keys). -/
structure HPAAnnotations where
  HPAManaged : Option String
  OriginalMin : Option Int
  OriginalMax : Option Int
  LastHPAUpdate : Option String
  Managed : Option String
  OverrideController : Option String
  GlobalConfigManaged : Option String
deriving DecidableEq, Repr

/-- `hpa.Spec.ScaleTargetRef`. -/
structure ScaleTargetRef where
  Kind : String
  Name : String
  APIVersion : String
deriving DecidableEq, Repr

/-- An HPA, restricted to the fields the engine reads or writes. -/
structure HPA where
  Name : String
  Namespace : String
  TargetRef : ScaleTargetRef
  MinReplicas : Int
  MaxReplicas : Int
  Ann : HPAAnnotations
deriving DecidableEq, Repr

/-- `api/v1` `DeploymentReference`. -/
structure DeploymentReference where
  Name : String
  Namespace : String
deriving DecidableEq, Repr

/-- `api/v1` `HPAReference`. -/
structure HPAReference where
  Name : String
  Namespace : String
deriving DecidableEq, Repr

/-- `api/v1` `TargetSelector`. -/
structure TargetSelector where
  MatchLabels : List (String × String)
deriving DecidableEq, Repr

/-- `api/v1` `ReplicasOverrideSpec`. -/
structure ReplicasOverrideSpec where
  Selector : Option TargetSelector
  DeploymentRef : Option DeploymentReference
  HPARef : Option HPAReference
  OverrideType : String
  ReplicasPercentage : Int
  MinReplicas : Option Int
  MaxReplicas : Option Int
deriving DecidableEq, Repr

/-- `api/v1` `ReplicasOverride` (spec part; status is not needed here). -/
structure ReplicasOverride where
  Name : String
  Namespace : String
  Spec : ReplicasOverrideSpec
deriving DecidableEq, Repr

/-- `api/v1` `IgnoredResource`. -/
structure IgnoredResource where
  Kind : String
  Name : String
  Namespace : String
deriving DecidableEq, Repr

/-- `api/v1` `GlobalReplicasIgnoreSpec`. -/
structure GlobalReplicasIgnoreSpec where
  IgnoreNamespaces : List String
  IgnoreResources : List IgnoredResource
  IgnoreLabels : List (String × String)
deriving DecidableEq, Repr

/-- Go map indexing `labels[key]`: the stored value, or `""` when the key is
absent. -/
def lookupLabel (labels : List (String × String)) (key : String) : String :=
  (labels.lookup key).getD ""

/-- `math.Round(float64(n) / 100.0)` on an exact product `n`: the nearest
integer to `n / 100`, rounding half away from zero (the documented behavior
of Go's `math.Round`). -/
def mathRound100 (n : Int) : Int :=
  Int.sign n * (((n.natAbs + 50) / 100 : Nat) : Int)

/-- `pkg/utils/scaling.go` `GetOriginalReplicas`: the parsed
`original-replicas` annotation, falling back to `*deployment.Spec.Replicas`. -/
def GetOriginalReplicas (d : Deployment) : Int :=
  d.Ann.OriginalReplicas.getD d.Replicas

/-- `pkg/utils/scaling.go` `CalculateNewReplicas` (lines 103-119):
`int32(math.Max(1, math.Round(float64(base) * (percentage / 100.0))))`.
The `result > math.MaxInt32` guard in the source is dead code (`result` is
already an `int32`) and adds nothing to the model. -/
def CalculateNewReplicas (d : Deployment) (ov : ReplicasOverride) : Int :=
  max 1 (mathRound100 (GetOriginalReplicas d * ov.Spec.ReplicasPercentage))

/-- The namespace loop of `ShouldIgnoreDeployment` (lines 138-142). -/
def ignoreNamespacesHit (d : Deployment) (ig : GlobalReplicasIgnoreSpec) : Bool :=
  ig.IgnoreNamespaces.any (fun ns => d.Namespace == ns)

/-- The resource loop of `ShouldIgnoreDeployment` (lines 145-151). -/
def ignoreResourcesHit (d : Deployment) (ig : GlobalReplicasIgnoreSpec) : Bool :=
  ig.IgnoreResources.any (fun res =>
    res.Kind == "Deployment" && res.Name == d.Name &&
      (res.Namespace == "" || res.Namespace == d.Namespace))

/-- The label loop of `ShouldIgnoreDeployment` (lines 154-158):
`deployment.Labels[key] == value` with the Go-map default `""`. -/
def ignoreLabelsHit (d : Deployment) (ig : GlobalReplicasIgnoreSpec) : Bool :=
  ig.IgnoreLabels.any (fun kv => lookupLabel d.Labels kv.1 == kv.2)

/-- `pkg/utils/scaling.go` `ShouldIgnoreDeployment` (lines 136-161): three
loops tried in order, each returning its fixed reason at the first hit. -/
def ShouldIgnoreDeployment (d : Deployment) (ig : GlobalReplicasIgnoreSpec) :
    Bool × String :=
  if ignoreNamespacesHit d ig then (true, "Namespace is in ignore list")
  else if ignoreResourcesHit d ig then (true, "Deployment is in ignore list")
  else if ignoreLabelsHit d ig then (true, "Deployment has ignored label")
  else (false, "")

/-! ## The per-deployment reconciliation step
(`internal/controller/replicasoverride_controller.go`) -/

/-- The HPA search of `processDeployment` (lines 354-367): the first HPA in
the deployment's namespace whose `scaleTargetRef` is
`{Kind: "Deployment", Name: deployment.Name, APIVersion: "apps/v1"}`.
`hpas` is the HPA list of that namespace, in list order. -/
def findExistingHPA (d : Deployment) (hpas : List HPA) : Option HPA :=
  hpas.find? (fun hpa =>
    hpa.TargetRef.Kind == "Deployment" &&
      hpa.TargetRef.Name == d.Name &&
      hpa.TargetRef.APIVersion == "apps/v1")

/-- Lines 374-382 of `processDeployment`: record `original-replicas` if not
already present — from the HPA's `spec.minReplicas` when an HPA targets the
deployment, otherwise from the deployment's own `spec.replicas`. -/
def storeOriginalReplicas (d : Deployment) (existingHPA : Option HPA) : Deployment :=
  match d.Ann.OriginalReplicas with
  | some _ => d
  | none =>
    match existingHPA with
    | some hpa => { d with Ann := { d.Ann with OriginalReplicas := some hpa.MinReplicas } }
    | none => { d with Ann := { d.Ann with OriginalReplicas := some d.Replicas } }

/-- Lines 384-390 of `processDeployment`: mark the deployment as managed by
the override controller or by the global config. -/
def markManagedBy (d : Deployment) (ov : Option ReplicasOverride) : Deployment :=
  match ov with
  | some _ =>
    { d with Ann := { d.Ann with OverrideController := some "true", Managed := some "true" } }
  | none =>
    { d with Ann := { d.Ann with GlobalConfigManaged := some "true" } }

/-- Lines 429-435 of `processDeployment` (and 514-520 of `processHPA`): the
override's percentage when an override is being applied, else the global
percentage. -/
def selectPercentage (ov : Option ReplicasOverride) (cfg : GlobalConfig) : Int :=
  match ov with
  | some o => o.Spec.ReplicasPercentage
  | none => cfg.GlobalPercentage

/-- `int32(float64(originalReplicas) * float64(percentage) / 100.0)`
(line 438 of `processDeployment`, line 472 of `calculateTargetReplicas`,
lines 523-524 of `processHPA`): the exact product divided by 100, truncated
toward zero as the float-to-integer conversion does. -/
def truncTargetReplicas (originalReplicas percentage : Int) : Int :=
  Int.tdiv (originalReplicas * percentage) 100

/-- Lines 441-446 of `processDeployment`: clamp the target into the global
config's `[MinReplicas, MaxReplicas]` window. -/
def applyConfigLimits (target : Int) (cfg : GlobalConfig) : Int :=
  let t := if target < cfg.MinReplicas then cfg.MinReplicas else target
  if t > cfg.MaxReplicas then cfg.MaxReplicas else t

/-- `calculateTargetReplicas` (lines 470-473): parse `original-replicas`
(the ignored parse error yields 0 on a missing key) and apply the
percentage. -/
def calculateTargetReplicas (d : Deployment) (percentage : Int) : Int :=
  truncTargetReplicas (d.Ann.OriginalReplicas.getD 0) percentage

/-- Lines 484-490 of `processHPA`: record `hpa-original-min` / `hpa-original-max`
if not already present. -/
def storeOriginalHPALimits (hpa : HPA) : HPA :=
  let h1 :=
    match hpa.Ann.OriginalMin with
    | some _ => hpa
    | none => { hpa with Ann := { hpa.Ann with OriginalMin := some hpa.MinReplicas } }
  match h1.Ann.OriginalMax with
  | some _ => h1
  | none => { h1 with Ann := { h1.Ann with OriginalMax := some h1.MaxReplicas } }

/-- Lines 492-499 of `processHPA`: mark the HPA as managed. -/
def markHPAManagedBy (hpa : HPA) (ov : Option ReplicasOverride) : HPA :=
  let h1 :=
    match ov with
    | some _ =>
      { hpa with Ann := { hpa.Ann with OverrideController := some "true", Managed := some "true" } }
    | none =>
      { hpa with Ann := { hpa.Ann with GlobalConfigManaged := some "true" } }
  { h1 with Ann := { h1.Ann with HPAManaged := some "true" } }

/-- `processHPA` (lines 476-554): annotate the HPA, recompute its min/max
from the recorded originals and the applicable percentage, clamp them to the
global config's window, force `min ≤ max`, and write both together with a
fresh `last-hpa-update` stamp.  `now` is the RFC3339 timestamp taken at the
update. -/
def processHPA (hpa : HPA) (ov : Option ReplicasOverride) (cfg : GlobalConfig)
    (now : String) : HPA :=
  let h := markHPAManagedBy (storeOriginalHPALimits hpa) ov
  let originalMin := h.Ann.OriginalMin.getD 0
  let originalMax := h.Ann.OriginalMax.getD 0
  let percentage := selectPercentage ov cfg
  let targetMin0 := truncTargetReplicas originalMin percentage
  let targetMax0 := truncTargetReplicas originalMax percentage
  let targetMin1 := if targetMin0 < cfg.MinReplicas then cfg.MinReplicas else targetMin0
  let targetMax1 := if targetMax0 > cfg.MaxReplicas then cfg.MaxReplicas else targetMax0
  let targetMin2 := if targetMin1 > targetMax1 then targetMax1 else targetMin1
  { h with MinReplicas := targetMin2, MaxReplicas := targetMax1,
           Ann := { h.Ann with LastHPAUpdate := some now } }

/-- `processDeployment` (lines 350-468), as the pair of object states it
persists: the Deployment as written to the cluster, and `some hpa'` when an
HPA targets the deployment (in which case the HPA is resized instead).

When an HPA is found, the update closure at lines 396-409 re-reads the
cluster copy of the Deployment and persists only the `management-mode` and
`global-config-managed` annotations on it; the in-memory edits made at lines
374-390 (original-replicas, override-controller, managed) are never sent to
the cluster on this path.  Without an HPA the in-memory object itself is
updated and persisted (lines 415-467). -/
def processDeployment (d : Deployment) (hpas : List HPA)
    (ov : Option ReplicasOverride) (cfg : GlobalConfig) (now : String) :
    Deployment × Option HPA :=
  let existingHPA := findExistingHPA d hpas
  let d1 := storeOriginalReplicas d existingHPA
  let d2 := markManagedBy d1 ov
  match existingHPA with
  | some hpa =>
    let persisted : Deployment :=
      { d with Ann := { d.Ann with ManagementMode := some "hpa",
                                   GlobalConfigManaged := some "true" } }
    (persisted, some (processHPA hpa ov cfg now))
  | none =>
    let d3 := { d2 with Ann := { d2.Ann with ManagementMode := some "direct" } }
    let originalReplicas := d3.Ann.OriginalReplicas.getD 0
    let percentage := selectPercentage ov cfg
    let target := applyConfigLimits (truncTargetReplicas originalReplicas percentage) cfg
    ({ d3 with Replicas := target,
               Ann := { d3.Ann with LastUpdate := some now } }, none)

/-! ## The cleanup pass of `Reconcile` (lines 163-258): reverting a
previously affected Deployment and its HPA. -/

/-- Lines 172-191 plus the final `Update` (line 257): remove every
management annotation from the Deployment and, when `original-replicas` was
recorded, write it back to `spec.replicas`. -/
def cleanupDeployment (d : Deployment) : Deployment :=
  let originalReplicas := d.Ann.OriginalReplicas
  let cleared : Deployment :=
    { d with Ann := { OriginalReplicas := none, Managed := none,
                      OverrideController := none, GlobalConfigManaged := none,
                      ManagementMode := none, LastUpdate := none } }
  match originalReplicas with
  | some n => { cleared with Replicas := n }
  | none => cleared

/-- Lines 214-244: remove every management annotation from the HPA and,
when `hpa-original-min` / `hpa-original-max` were recorded, write them back
to `spec.minReplicas` / `spec.maxReplicas`. -/
def cleanupHPA (hpa : HPA) : HPA :=
  let originalMin := hpa.Ann.OriginalMin
  let originalMax := hpa.Ann.OriginalMax
  let cleared : HPA :=
    { hpa with Ann := { HPAManaged := none, OriginalMin := none,
                        OriginalMax := none, LastHPAUpdate := none,
                        Managed := none, OverrideController := none,
                        GlobalConfigManaged := none } }
  let h1 :=
    match originalMin with
    | some n => { cleared with MinReplicas := n }
    | none => cleared
  match originalMax with
  | some n => { h1 with MaxReplicas := n }
  | none => h1

/-! ## The configuration manager (`pkg/config`) -/

/-- A ConfigMap, restricted to its string data. -/
structure ConfigMap where
  Data : List (String × String)
deriving DecidableEq, Repr

/-- The key read from the ConfigMap (`ConfigMapKey` in `pkg/config`). -/
def configMapKey : String := "config.yaml"

/-- `config.Manager.loadConfig` (lines 114-151 of the manager): fetch the
ConfigMap, read `config.yaml`, unmarshal it, and only then swap the stored
configuration.  The cluster `Get` and the YAML unmarshal are external
collaborators and enter as `getResult` (`none` = `Get` failed) and
`unmarshal` (`none` = unmarshal error).  The result is the stored
configuration after the call, paired with the error message if any. -/
def loadConfig (stored : GlobalConfig) (getResult : Option ConfigMap)
    (unmarshal : String → Option GlobalConfig) : GlobalConfig × Option String :=
  match getResult with
  | none => (stored, some "failed to get ConfigMap")
  | some cm =>
    match cm.Data.lookup configMapKey with
    | none => (stored, some "ConfigMap key config.yaml not found")
    | some configData =>
      match unmarshal configData with
      | none => (stored, some "failed to unmarshal config")
      | some cfg => (cfg, none)

/-- `config.Manager.GetConfig` (lines 105-111): return the stored
configuration. -/
def GetConfig (stored : GlobalConfig) : GlobalConfig := stored

/-! ## Concrete fixtures used by witnesses and counterexamples -/

/-- A Deployment carrying none of the engine's annotations. -/
def emptyDeployAnn : DeployAnnotations :=
  { OriginalReplicas := none, Managed := none, OverrideController := none,
    GlobalConfigManaged := none, ManagementMode := none, LastUpdate := none }

/-- An HPA carrying none of the engine's annotations. -/
def emptyHPAAnn : HPAAnnotations :=
  { HPAManaged := none, OriginalMin := none, OriginalMax := none,
    LastHPAUpdate := none, Managed := none, OverrideController := none,
    GlobalConfigManaged := none }

/-- An override spec with only a percentage (direct `deploymentRef` target). -/
def mkOverrideSpec (pct : Int) : ReplicasOverrideSpec :=
  { Selector := none,
    DeploymentRef := some { Name := "web", Namespace := "default" },
    HPARef := none, OverrideType := "override", ReplicasPercentage := pct,
    MinReplicas := none, MaxReplicas := none }

/-- Deployment of 4 replicas whose original size 4 is already recorded. -/
def dBase4 : Deployment :=
  { Name := "web", Namespace := "default", Labels := [],
    Replicas := 4,
    Ann := { emptyDeployAnn with OriginalReplicas := some 4 } }

/-- An override scaling to 25%. -/
def ovPct25 : ReplicasOverride :=
  { Name := "quarter", Namespace := "default", Spec := mkOverrideSpec 25 }

/-- An additive override of 150% (README example: adds to the global
percentage). -/
def ovAdditive150 : ReplicasOverride :=
  { Name := "boost", Namespace := "default",
    Spec := { mkOverrideSpec 150 with OverrideType := "additive" } }

/-- A global configuration of 150% within `[1, 100]`. -/
def cfgGlobal150 : GlobalConfig :=
  { GlobalPercentage := 150, MaxReplicas := 100, MinReplicas := 1 }

/-- An override of 10% carrying its own bounds `[3, 5]`. -/
def ovPct10Bounds : ReplicasOverride :=
  { Name := "narrow", Namespace := "default",
    Spec := { mkOverrideSpec 10 with MinReplicas := some 3, MaxReplicas := some 5 } }

/-- The default global configuration: 100% within `[1, 100]`. -/
def cfgDefault : GlobalConfig :=
  { GlobalPercentage := 100, MaxReplicas := 100, MinReplicas := 1 }

/-- Deployment of 2 replicas whose original size 2 is already recorded. -/
def dBase2 : Deployment :=
  { Name := "api", Namespace := "default", Labels := [],
    Replicas := 2,
    Ann := { emptyDeployAnn with OriginalReplicas := some 2 } }

/-- Deployment previously managed by the global config
(`global-config-managed` = "true", original size 4 recorded, resized to 6). -/
def dGlobalManaged : Deployment :=
  { Name := "web", Namespace := "default", Labels := [],
    Replicas := 6,
    Ann := { emptyDeployAnn with OriginalReplicas := some 4,
                                 GlobalConfigManaged := some "true",
                                 ManagementMode := some "direct",
                                 LastUpdate := some "2025-01-01T00:00:00Z" } }

/-- An HPA targeting the Deployment `web` through `apps/v1`. -/
def hpaWeb : HPA :=
  { Name := "web-hpa", Namespace := "default",
    TargetRef := { Kind := "Deployment", Name := "web", APIVersion := "apps/v1" },
    MinReplicas := 2, MaxReplicas := 10, Ann := emptyHPAAnn }

/-- A fully managed Deployment as left by a direct-mode reconciliation. -/
def dManaged : Deployment :=
  { Name := "web", Namespace := "default", Labels := [],
    Replicas := 8,
    Ann := { OriginalReplicas := some 4, Managed := some "true",
             OverrideController := some "true", GlobalConfigManaged := none,
             ManagementMode := some "direct",
             LastUpdate := some "2025-01-01T00:00:00Z" } }

/-- A fully managed HPA as left by `processHPA`. -/
def hpaManaged : HPA :=
  { Name := "web-hpa", Namespace := "default",
    TargetRef := { Kind := "Deployment", Name := "web", APIVersion := "apps/v1" },
    MinReplicas := 3, MaxReplicas := 15,
    Ann := { HPAManaged := some "true", OriginalMin := some 2,
             OriginalMax := some 10,
             LastHPAUpdate := some "2025-01-01T00:00:00Z",
             Managed := some "true", OverrideController := some "true",
             GlobalConfigManaged := none } }

/-- Ignore object: namespace rule on `prod`, and a label rule mapping
`team` to the empty string. -/
def igProdTeam : GlobalReplicasIgnoreSpec :=
  { IgnoreNamespaces := ["prod"], IgnoreResources := [],
    IgnoreLabels := [("team", "")] }

/-- Unlabelled Deployment living in the ignored namespace `prod`. -/
def dProd : Deployment :=
  { Name := "api", Namespace := "prod", Labels := [], Replicas := 1,
    Ann := emptyDeployAnn }

/-- Round half away from zero of `n / 100`, written from the specification's
words (`round_half_away_from_zero(original · percentage / 100)`): add half,
take the floor, and restore the sign. -/
def roundHalfAwayFromZero100 (n : Int) : Int :=
  if 0 ≤ n then (n + 50).fdiv 100 else -(((-n) + 50).fdiv 100)

/-- An override scaling to 75%. -/
def ovPct75 : ReplicasOverride :=
  { Name := "threequarters", Namespace := "default", Spec := mkOverrideSpec 75 }

/-- Ignore object with only the empty-valued label rule. -/
def igTeamOnly : GlobalReplicasIgnoreSpec :=
  { IgnoreNamespaces := [], IgnoreResources := [], IgnoreLabels := [("team", "")] }


/-! ## Helper lemmas (shared) -/

/-- The namespace loop hits exactly when the deployment's namespace is in
the ignore list. -/
theorem ignoreNamespacesHit_iff (d : Deployment) (ig : GlobalReplicasIgnoreSpec) :
    ignoreNamespacesHit d ig = true ↔ d.Namespace ∈ ig.IgnoreNamespaces := by
  simp only [ignoreNamespacesHit, List.any_eq_true, beq_iff_eq]
  exact ⟨fun ⟨ns, hns, he⟩ => he ▸ hns, fun h => ⟨_, h, rfl⟩⟩

/-- The resource loop hits exactly when some entry names the deployment with
kind `Deployment` and a blank or equal namespace. -/
theorem ignoreResourcesHit_iff (d : Deployment) (ig : GlobalReplicasIgnoreSpec) :
    ignoreResourcesHit d ig = true ↔
      ∃ res ∈ ig.IgnoreResources, res.Kind = "Deployment" ∧ res.Name = d.Name ∧
        (res.Namespace = "" ∨ res.Namespace = d.Namespace) := by
  simp [ignoreResourcesHit, List.any_eq_true, and_assoc]

/-- The label loop hits exactly when some rule's value equals the Go map
lookup (missing keys read back as `""`). -/
theorem ignoreLabelsHit_iff (d : Deployment) (ig : GlobalReplicasIgnoreSpec) :
    ignoreLabelsHit d ig = true ↔
      ∃ kv ∈ ig.IgnoreLabels, lookupLabel d.Labels kv.1 = kv.2 := by
  simp [ignoreLabelsHit, List.any_eq_true]

/-- `processHPA` rewrites only `spec.minReplicas`, `spec.maxReplicas` and
annotations: name, namespace and `scaleTargetRef` pass through. -/
theorem processHPA_preserves_identity (hpa : HPA) (ov : Option ReplicasOverride)
    (cfg : GlobalConfig) (now : String) :
    (processHPA hpa ov cfg now).Name = hpa.Name ∧
    (processHPA hpa ov cfg now).Namespace = hpa.Namespace ∧
    (processHPA hpa ov cfg now).TargetRef = hpa.TargetRef := by
  cases ov <;> cases h1 : hpa.Ann.OriginalMin <;> cases h2 : hpa.Ann.OriginalMax <;>
    simp [processHPA, markHPAManagedBy, storeOriginalHPALimits, h1, h2]

/-- The source's `math.Round`-based computation agrees with the
specification's round-half-away-from-zero. -/
theorem mathRound100_eq_roundHalfAwayFromZero100 (n : Int) :
    mathRound100 n = roundHalfAwayFromZero100 n := by
  unfold mathRound100 roundHalfAwayFromZero100
  rcases lt_trichotomy n 0 with hn | hn | hn
  · rw [if_neg (by omega), Int.sign_eq_neg_one_of_neg hn,
      Int.fdiv_eq_ediv _ (by norm_num)]
    have habs : (n.natAbs : Int) = -n := by omega
    have : ((n.natAbs + 50) / 100 : Nat) = ((-n + 50) / 100 : Int).toNat := by
      omega
    rw [this]
    omega
  · subst hn; rfl
  · rw [if_pos (by omega), Int.sign_eq_one_of_pos hn,
      Int.fdiv_eq_ediv _ (by norm_num)]
    have : ((n.natAbs + 50) / 100 : Nat) = ((n + 50) / 100 : Int).toNat := by
      omega
    rw [this]
    omega

/-! ## Claim theorems -/

/-- C1 (counterexample): at original = 4 ≥ 1, percentage = 25 ≥ 0 and bounds
1 ≤ 2 ≤ 10, `CalculateNewReplicas` returns 1, which is below the lower
bound: the function applies no min/max bounds at all. -/
theorem calculateNewReplicas_outside_bounds :
    GetOriginalReplicas dBase4 = 4 ∧ (1 : Int) ≤ 4 ∧
    ovPct25.Spec.ReplicasPercentage = 25 ∧ (0 : Int) ≤ 25 ∧
    (1 : Int) ≤ 2 ∧ (2 : Int) ≤ 10 ∧
    CalculateNewReplicas dBase4 ovPct25 = 1 ∧
    ¬((2 : Int) ≤ CalculateNewReplicas dBase4 ovPct25) := by decide

/-- C1 (amended): the inline target computation of `processDeployment`
(the branch taken when no HPA targets the deployment) always lands in the
global config's `[MinReplicas, MaxReplicas]` window whenever that window is
nonempty; `CalculateNewReplicas` gives no such guarantee. -/
theorem processDeployment_target_within_config_bounds (d : Deployment)
    (hpas : List HPA) (ov : Option ReplicasOverride) (cfg : GlobalConfig)
    (now : String)
    (hnohpa : findExistingHPA d hpas = none)
    (hminmax : cfg.MinReplicas ≤ cfg.MaxReplicas) :
    cfg.MinReplicas ≤ (processDeployment d hpas ov cfg now).1.Replicas ∧
    (processDeployment d hpas ov cfg now).1.Replicas ≤ cfg.MaxReplicas := by
  simp only [processDeployment, hnohpa, applyConfigLimits]
  constructor <;> dsimp only <;> split <;> split <;> omega

/-- C1 (witness): a concrete no-HPA run stays within the default window. -/
theorem processDeployment_target_within_config_bounds_witness :
    cfgDefault.MinReplicas ≤
      (processDeployment dBase4 [] (some ovPct25) cfgDefault "T").1.Replicas ∧
    (processDeployment dBase4 [] (some ovPct25) cfgDefault "T").1.Replicas ≤
      cfgDefault.MaxReplicas :=
  processDeployment_target_within_config_bounds dBase4 [] (some ovPct25)
    cfgDefault "T" rfl (by decide)

/-- C2: when an HPA with scaleTargetRef kind `Deployment`, apiVersion
`apps/v1` and the deployment's name is present, `processDeployment` leaves
`spec.replicas` (and name, namespace, labels) of the Deployment untouched,
and delegates to `processHPA`, which rewrites only the HPA's min/max and
annotations. -/
theorem hpa_precedence (d : Deployment) (hpas : List HPA)
    (ov : Option ReplicasOverride) (cfg : GlobalConfig) (now : String)
    (h : HPA) (hmem : h ∈ hpas)
    (hkind : h.TargetRef.Kind = "Deployment")
    (hname : h.TargetRef.Name = d.Name)
    (hapi : h.TargetRef.APIVersion = "apps/v1") :
    (processDeployment d hpas ov cfg now).1.Replicas = d.Replicas ∧
    (processDeployment d hpas ov cfg now).1.Name = d.Name ∧
    (processDeployment d hpas ov cfg now).1.Namespace = d.Namespace ∧
    (processDeployment d hpas ov cfg now).1.Labels = d.Labels ∧
    ∃ h0 ∈ hpas,
      (processDeployment d hpas ov cfg now).2 = some (processHPA h0 ov cfg now) ∧
      (processHPA h0 ov cfg now).Name = h0.Name ∧
      (processHPA h0 ov cfg now).Namespace = h0.Namespace ∧
      (processHPA h0 ov cfg now).TargetRef = h0.TargetRef := by
  have hsome : (findExistingHPA d hpas).isSome := by
    rw [findExistingHPA, List.find?_isSome]
    exact ⟨h, hmem, by simp [hkind, hname, hapi]⟩
  obtain ⟨h0, hfind⟩ := Option.isSome_iff_exists.mp hsome
  have hmem0 : h0 ∈ hpas := List.mem_of_find?_eq_some hfind
  refine ⟨?_, ?_, ?_, ?_, h0, hmem0, ?_, (processHPA_preserves_identity h0 ov cfg now).1,
    (processHPA_preserves_identity h0 ov cfg now).2.1,
    (processHPA_preserves_identity h0 ov cfg now).2.2⟩ <;>
    simp only [processDeployment, hfind]

/-- C2 (witness): concrete run with `hpaWeb` targeting `dBase4`. -/
theorem hpa_precedence_witness :
    (processDeployment dBase4 [hpaWeb] (some ovPct25) cfgDefault "T").1.Replicas =
      dBase4.Replicas ∧
    (processDeployment dBase4 [hpaWeb] (some ovPct25) cfgDefault "T").1.Name =
      dBase4.Name ∧
    (processDeployment dBase4 [hpaWeb] (some ovPct25) cfgDefault "T").1.Namespace =
      dBase4.Namespace ∧
    (processDeployment dBase4 [hpaWeb] (some ovPct25) cfgDefault "T").1.Labels =
      dBase4.Labels ∧
    ∃ h0 ∈ [hpaWeb],
      (processDeployment dBase4 [hpaWeb] (some ovPct25) cfgDefault "T").2 =
        some (processHPA h0 (some ovPct25) cfgDefault "T") ∧
      (processHPA h0 (some ovPct25) cfgDefault "T").Name = h0.Name ∧
      (processHPA h0 (some ovPct25) cfgDefault "T").Namespace = h0.Namespace ∧
      (processHPA h0 (some ovPct25) cfgDefault "T").TargetRef = h0.TargetRef :=
  hpa_precedence dBase4 [hpaWeb] (some ovPct25) cfgDefault "T" hpaWeb
    (List.mem_singleton.mpr rfl) rfl rfl rfl

/-- C3: with global percentage 150 and an `additive` override of 150 on an
original size of 4, the code scales by the override's bare 150 and produces
6; the documented additive composition 150 + 150 - 100 = 200 would produce
8.  `overrideType` is never read by the controller. -/
theorem additive_composition_not_implemented :
    ovAdditive150.Spec.OverrideType = "additive" ∧
    cfgGlobal150.GlobalPercentage + ovAdditive150.Spec.ReplicasPercentage - 100 = 200 ∧
    applyConfigLimits (truncTargetReplicas 4 200) cfgGlobal150 = 8 ∧
    (processDeployment dBase4 [] (some ovAdditive150) cfgGlobal150 "T").1.Replicas = 6 ∧
    (6 : Int) ≠ 8 := by decide

/-- C4: with base 4, percentage 10 and override bounds `[3, 5]`, the code
clamps with the global config's bounds `[1, 100]` and produces 1; the
documented per-override bounds would produce 3.  The override's
`minReplicas` / `maxReplicas` are never read by the controller. -/
theorem override_bounds_not_used :
    ovPct10Bounds.Spec.MinReplicas = some 3 ∧
    ovPct10Bounds.Spec.MaxReplicas = some 5 ∧
    (processDeployment dBase4 [] (some ovPct10Bounds) cfgDefault "T").1.Replicas = 1 ∧
    (1 : Int) ≠ 3 := by decide

/-- C5 (counterexample): at original = 2 and percentage = 75 the inline
computation (`calculateTargetReplicas`, the same expression as line 438 of
`processDeployment`) truncates 1.5 to 1, while round-half-away-from-zero
floored at 1 gives 2; the persisted replica count is 1, not 2. -/
theorem inline_truncation_not_rounding :
    dBase2.Ann.OriginalReplicas = some 2 ∧
    calculateTargetReplicas dBase2 75 = 1 ∧
    max 1 (roundHalfAwayFromZero100 (2 * 75)) = 2 ∧
    (processDeployment dBase2 [] (some ovPct75) cfgDefault "T").1.Replicas = 1 ∧
    (1 : Int) ≠ 2 := by decide

/-- C5 (amended): `CalculateNewReplicas` computes round-half-away-from-zero
of original · percentage / 100 floored at 1, but the inline computation in
`processDeployment` instead truncates toward zero and applies no floor at 1
before the bounds clamp. -/
theorem sizing_round_vs_truncate (d : Deployment) (ov : ReplicasOverride)
    (n : Int) (hrec : d.Ann.OriginalReplicas = some n) :
    CalculateNewReplicas d ov =
      max 1 (roundHalfAwayFromZero100 (n * ov.Spec.ReplicasPercentage)) ∧
    calculateTargetReplicas d ov.Spec.ReplicasPercentage =
      Int.tdiv (n * ov.Spec.ReplicasPercentage) 100 := by
  constructor
  · rw [CalculateNewReplicas, mathRound100_eq_roundHalfAwayFromZero100,
      GetOriginalReplicas, hrec, Option.getD_some]
  · rw [calculateTargetReplicas, truncTargetReplicas, hrec, Option.getD_some]

/-- C5 (witness): the two computations evaluated at original = 2,
percentage = 75. -/
theorem sizing_round_vs_truncate_witness :
    CalculateNewReplicas dBase2 ovPct75 =
      max 1 (roundHalfAwayFromZero100 (2 * ovPct75.Spec.ReplicasPercentage)) ∧
    calculateTargetReplicas dBase2 ovPct75.Spec.ReplicasPercentage =
      Int.tdiv (2 * ovPct75.Spec.ReplicasPercentage) 100 :=
  sizing_round_vs_truncate dBase2 ovPct75 2 rfl

/-- C6: the cleanup pass restores `spec.replicas` (and the HPA's min/max)
exactly to the recorded original-value annotations and removes every
management annotation from both objects. -/
theorem cleanup_restores_originals (d : Deployment) (hpa : HPA) (n a b : Int)
    (hd : d.Ann.OriginalReplicas = some n)
    (hmin : hpa.Ann.OriginalMin = some a)
    (hmax : hpa.Ann.OriginalMax = some b) :
    (cleanupDeployment d).Replicas = n ∧
    (cleanupDeployment d).Ann = emptyDeployAnn ∧
    (cleanupHPA hpa).MinReplicas = a ∧
    (cleanupHPA hpa).MaxReplicas = b ∧
    (cleanupHPA hpa).Ann = emptyHPAAnn := by
  refine ⟨?_, ?_, ?_, ?_, ?_⟩ <;>
    simp [cleanupDeployment, cleanupHPA, emptyDeployAnn, emptyHPAAnn, hd, hmin, hmax]

/-- C6 (witness): a managed Deployment (original 4) and HPA (original
min 2, max 10) are reverted to those values with all annotations gone. -/
theorem cleanup_restores_originals_witness :
    (cleanupDeployment dManaged).Replicas = 4 ∧
    (cleanupDeployment dManaged).Ann = emptyDeployAnn ∧
    (cleanupHPA hpaManaged).MinReplicas = 2 ∧
    (cleanupHPA hpaManaged).MaxReplicas = 10 ∧
    (cleanupHPA hpaManaged).Ann = emptyHPAAnn :=
  cleanup_restores_originals dManaged hpaManaged 4 2 10 rfl rfl rfl

/-- C7: the single-management-mode invariant fails on two reachable states.
Processing a previously global-managed Deployment under an override leaves
both `override-controller` and `global-config-managed` set to "true" (the
code never clears the other mode), and on the HPA path the persisted
Deployment gets `global-config-managed` = "true" — never
`override-controller` — even though an override is being applied. -/
theorem single_management_mode_violated :
    dGlobalManaged.Ann.GlobalConfigManaged = some "true" ∧
    (processDeployment dGlobalManaged [] (some ovPct25) cfgDefault "T").1.Ann.OverrideController
      = some "true" ∧
    (processDeployment dGlobalManaged [] (some ovPct25) cfgDefault "T").1.Ann.GlobalConfigManaged
      = some "true" ∧
    (processDeployment dBase4 [hpaWeb] (some ovPct25) cfgDefault "T").1.Ann.GlobalConfigManaged
      = some "true" ∧
    (processDeployment dBase4 [hpaWeb] (some ovPct25) cfgDefault "T").1.Ann.OverrideController
      = none := by decide

/-- C8: `ShouldIgnoreDeployment` tries namespaces, then resources, then
labels, short-circuiting on the first hit, returns exactly the three reason
strings, and `(false, "")` when nothing matches. -/
theorem shouldIgnore_order_and_reasons (d : Deployment)
    (ig : GlobalReplicasIgnoreSpec) :
    (ShouldIgnoreDeployment d ig = (true, "Namespace is in ignore list") ↔
      d.Namespace ∈ ig.IgnoreNamespaces) ∧
    (ShouldIgnoreDeployment d ig = (true, "Deployment is in ignore list") ↔
      d.Namespace ∉ ig.IgnoreNamespaces ∧
      ∃ res ∈ ig.IgnoreResources, res.Kind = "Deployment" ∧ res.Name = d.Name ∧
        (res.Namespace = "" ∨ res.Namespace = d.Namespace)) ∧
    (ShouldIgnoreDeployment d ig = (true, "Deployment has ignored label") ↔
      d.Namespace ∉ ig.IgnoreNamespaces ∧
      ¬(∃ res ∈ ig.IgnoreResources, res.Kind = "Deployment" ∧ res.Name = d.Name ∧
        (res.Namespace = "" ∨ res.Namespace = d.Namespace)) ∧
      ∃ kv ∈ ig.IgnoreLabels, lookupLabel d.Labels kv.1 = kv.2) ∧
    (ShouldIgnoreDeployment d ig = (false, "") ↔
      d.Namespace ∉ ig.IgnoreNamespaces ∧
      ¬(∃ res ∈ ig.IgnoreResources, res.Kind = "Deployment" ∧ res.Name = d.Name ∧
        (res.Namespace = "" ∨ res.Namespace = d.Namespace)) ∧
      ¬(∃ kv ∈ ig.IgnoreLabels, lookupLabel d.Labels kv.1 = kv.2)) := by
  rw [← ignoreNamespacesHit_iff, ← ignoreResourcesHit_iff, ← ignoreLabelsHit_iff]
  unfold ShouldIgnoreDeployment
  rcases h1 : ignoreNamespacesHit d ig <;>
    rcases h2 : ignoreResourcesHit d ig <;>
    rcases h3 : ignoreLabelsHit d ig <;>
    simp

/-- C9: a failed configuration load (ConfigMap fetch failure, missing
`config.yaml` key, or unmarshal error) leaves the stored configuration
unchanged: `GetConfig` returns the same snapshot as before the call. -/
theorem loadConfig_failure_preserves_config (stored : GlobalConfig)
    (getResult : Option ConfigMap) (unmarshal : String → Option GlobalConfig)
    (e : String)
    (herr : (loadConfig stored getResult unmarshal).2 = some e) :
    GetConfig (loadConfig stored getResult unmarshal).1 = GetConfig stored := by
  unfold GetConfig
  unfold loadConfig at herr ⊢
  cases getResult with
  | none => rfl
  | some cm =>
    cases hk : cm.Data.lookup configMapKey with
    | none => simp [hk]
    | some configData =>
      cases hu : unmarshal configData with
      | none => simp [hk, hu]
      | some cfg => simp [hk, hu] at herr

/-- C9 (witness): a failed ConfigMap fetch yields an error and the default
snapshot survives. -/
theorem loadConfig_failure_preserves_config_witness :
    (loadConfig DefaultConfig none (fun _ => none)).2 =
      some "failed to get ConfigMap" ∧
    GetConfig (loadConfig DefaultConfig none (fun _ => none)).1 =
      GetConfig DefaultConfig :=
  ⟨rfl, loadConfig_failure_preserves_config DefaultConfig none (fun _ => none)
    "failed to get ConfigMap" rfl⟩

/-- C10 (counterexample): an empty-valued label rule does not decide the
result when an earlier rule already hits — here the namespace rule fires
first, although the Deployment carries no `team` label and the Ignore maps
`team` to `""`. -/
theorem emptyLabel_preempted_by_namespace_rule :
    ("team", "") ∈ igProdTeam.IgnoreLabels ∧
    dProd.Labels.lookup "team" = none ∧
    ShouldIgnoreDeployment dProd igProdTeam = (true, "Namespace is in ignore list") ∧
    ShouldIgnoreDeployment dProd igProdTeam ≠ (true, "Deployment has ignored label") := by
  decide

/-- C10 (amended): provided neither the namespace rule nor the resource rule
hits, an Ignore mapping some key to the empty string makes
`ShouldIgnoreDeployment` return `(true, "Deployment has ignored label")` for
every Deployment without that label key: the Go map lookup of the missing
key yields `""`, which compares equal to the rule's value. -/
theorem emptyLabel_matches_missing_key (d : Deployment)
    (ig : GlobalReplicasIgnoreSpec) (k : String)
    (hns : ignoreNamespacesHit d ig = false)
    (hres : ignoreResourcesHit d ig = false)
    (hkv : (k, "") ∈ ig.IgnoreLabels)
    (hmissing : d.Labels.lookup k = none) :
    ShouldIgnoreDeployment d ig = (true, "Deployment has ignored label") := by
  have hlab : ignoreLabelsHit d ig = true :=
    List.any_eq_true.mpr ⟨(k, ""), hkv, by simp [lookupLabel, hmissing]⟩
  simp [ShouldIgnoreDeployment, hns, hres, hlab]

/-- C10 (witness): an Ignore with only the rule `team ↦ ""` catches the
unlabelled `dBase4`. -/
theorem emptyLabel_matches_missing_key_witness :
    ShouldIgnoreDeployment dBase4 igTeamOnly = (true, "Deployment has ignored label") :=
  emptyLabel_matches_missing_key dBase4 igTeamOnly "team" rfl rfl
    (List.mem_singleton.mpr rfl) rfl
